import Mathlib

/-!
Shallow embedding of the Edit Workflow Orchestrator of `src/App.tsx`
(a React single-component application).

The component's `useState` hooks become the fields of `AppState`; every
event handler becomes a pure function on `AppState` (asynchronous handlers
are split into their synchronous start and their completion, with the
outcome of the awaited external operation passed in as data).  Browser
resources (object URLs created by `URL.createObjectURL`) are tracked
explicitly by an allocation counter together with the lists of allocated
and revoked reference identifiers, so that leak claims are statable.
-/

/-- JavaScript `String.prototype.trim`: strip whitespace from both ends.
Embedded structurally over the character list so the kernel can evaluate
it on concrete strings. -/
def jsTrim (s : String) : String :=
  ⟨((s.data.dropWhile Char.isWhitespace).reverse.dropWhile Char.isWhitespace).reverse⟩

/-- Helper for `jsSplit`: walk the characters, cutting at the separator;
`acc` holds the current (reversed) segment. -/
def splitCharAux (c : Char) : List Char → List Char → List (List Char)
  | [], acc => [acc.reverse]
  | x :: xs, acc =>
    if x = c then acc.reverse :: splitCharAux c xs []
    else splitCharAux c xs (x :: acc)

/-- JavaScript `String.prototype.split` with a single-character separator
(always returns at least one segment, keeps empty segments). -/
def jsSplit (s : String) (c : Char) : List String :=
  (splitCharAux c s.data []).map (fun l => ⟨l⟩)

/-- A `File` as the app uses it: a name, a MIME type, and its content,
represented by the base64 text that `FileReader.readAsDataURL` would
produce for it (the app never inspects the raw bytes directly). -/
structure ImageFile where
  name : String
  mimeType : String
  base64 : String
deriving Repr, DecidableEq

/-- `EditImageResult` from `src/types.ts` as used by `App.tsx`:
the edited image URL plus optional narrative text. -/
structure EditImageResult where
  imageUrl : String
  text : Option String
deriving Repr, DecidableEq

/-- The component state: one field per `useState` hook of `App` (lines
33-41), plus the object-URL resource ledger (`nextUrlId` is the next fresh
reference; `allocatedUrls` and `revokedUrls` record every
`URL.createObjectURL` / `URL.revokeObjectURL` call made so far). -/
structure AppState where
  originalImage : Option ImageFile
  originalImagePreview : Option Nat
  prompt : String
  promptHistory : List String
  editedResult : Option EditImageResult
  isLoading : Bool
  error : Option String
  isAdModalOpen : Bool
  imageToDownload : Option String
  nextUrlId : Nat
  allocatedUrls : List Nat
  revokedUrls : List Nat
deriving Repr, DecidableEq

/-- The initial state of all hooks (lines 33-41): everything empty. -/
def initialState : AppState :=
  { originalImage := none
    originalImagePreview := none
    prompt := ""
    promptHistory := []
    editedResult := none
    isLoading := false
    error := none
    isAdModalOpen := false
    imageToDownload := none
    nextUrlId := 0
    allocatedUrls := []
    revokedUrls := [] }

/-- `URL.createObjectURL`: allocates a fresh preview reference and records
it as allocated.  Nothing in `App.tsx` ever calls `URL.revokeObjectURL`,
so no operation below ever touches `revokedUrls`. -/
def createObjectURL (s : AppState) : AppState × Nat :=
  ({ s with nextUrlId := s.nextUrlId + 1, allocatedUrls := s.nextUrlId :: s.allocatedUrls },
   s.nextUrlId)

/-- `handleImageUpload` (lines 44-50): store the file, allocate a new
preview reference, clear result, error and prompt.  The previous preview
reference is simply dropped, not revoked. -/
def handleImageUpload (s : AppState) (file : ImageFile) : AppState :=
  let p := createObjectURL s
  { p.1 with
    originalImage := some file
    originalImagePreview := some p.2
    editedResult := none
    error := none
    prompt := "" }

/-- `resetState` (lines 73-81): clear image, preview, result, error,
prompt, history, and the loading flag.  It does not revoke the preview
reference and does not touch the download-gate fields. -/
def resetState (s : AppState) : AppState :=
  { s with
    originalImage := none
    originalImagePreview := none
    editedResult := none
    error := none
    prompt := ""
    promptHistory := []
    isLoading := false }

/-- The history update performed inside `handleSubmit` (lines 110-114)
together with the trim/empty guard of lines 99-103 that protects it: this
is the Ledger operation `record`.  Trim the instruction; if the trimmed
value is empty the ledger is untouched (the handler returned early);
otherwise drop every entry equal to the trimmed value, prepend it, and
keep the first 5 entries. -/
def record (history : List String) (x : String) : List String :=
  let t := jsTrim x
  if t = "" then history
  else (t :: history.filter (fun p => p ≠ t)).take 5

/-- The fixed validation message of line 101. -/
def validationMsg : String := "Please provide an image and a descriptive prompt."

/-- The fallback error message of line 125. -/
def unexpectedErrorMsg : String := "An unexpected error occurred. Please try again."

/-- The arguments handed to `editImageWithGemini` at line 118.  They are
captured by the closure at submit time: the base64 content and MIME type
come from reading the submitted file, and the instruction argument is the
raw `prompt` state (line 118 passes `prompt`, not `trimmedPrompt`). -/
structure ServiceRequest where
  base64 : String
  mimeType : String
  instruction : String
deriving Repr, DecidableEq

/-- `convertFileToBase64` (lines 83-95) on a successful read: the reader
yields the data URL `data:<mime>;base64,<content>`; the handler takes
`substring(5, indexOf(";"))` as the MIME type and `split(",")[1]` as the
base64 content. -/
def convertFileToBase64 (file : ImageFile) : String × String :=
  let dataUrl : String := "data:" ++ file.mimeType ++ ";base64," ++ file.base64
  let mime : String := ⟨(dataUrl.data.drop 5).takeWhile (fun c => c ≠ ';')⟩
  let content : String := (jsSplit dataUrl ',').getD 1 ""
  (content, mime)

/-- The synchronous prefix of `handleSubmit` (lines 97-118), up to and
including issuing the external call: validate (missing image or empty
trimmed prompt ⇒ set the validation message and stop), else set loading,
clear error and result, record the trimmed prompt into the history, and
issue the request whose instruction is the raw prompt.  Returns the new
state and the issued request, if any. -/
def handleSubmitStart (s : AppState) : AppState × Option ServiceRequest :=
  let trimmedPrompt := jsTrim s.prompt
  match s.originalImage with
  | none => ({ s with error := some validationMsg }, none)
  | some img =>
    if trimmedPrompt = "" then
      ({ s with error := some validationMsg }, none)
    else
      let enc := convertFileToBase64 img
      ({ s with
          isLoading := true
          error := none
          editedResult := none
          promptHistory := record s.promptHistory s.prompt },
       some { base64 := enc.1, mimeType := enc.2, instruction := s.prompt })

/-- How the awaited part of `handleSubmit` can end: the service resolves
with a result; it rejects with an `Error` carrying a message (shown
verbatim, line 123); or it rejects with something else (line 125).  A
failing `convertFileToBase64` read lands in the same catch block and is
covered by the failure constructors. -/
inductive ServiceOutcome where
  | success (result : EditImageResult)
  | failureWithMessage (msg : String)
  | failureUnknown
deriving Repr, DecidableEq

/-- The continuation of `handleSubmit` that runs when the awaited call
settles (lines 119-129): on success store the result; on failure store the
error message; in all cases (`finally`) clear the loading flag.  It is
applied to whatever the component state is at completion time — there is
no staleness guard in the code. -/
def handleSubmitComplete (s : AppState) (o : ServiceOutcome) : AppState :=
  match o with
  | .success r => { s with editedResult := some r, isLoading := false }
  | .failureWithMessage m => { s with error := some m, isLoading := false }
  | .failureUnknown => { s with error := some unexpectedErrorMsg, isLoading := false }

/-- The submit button's enabled condition (line 203):
`disabled = isLoading || !prompt.trim()`. -/
def submitButtonEnabled (s : AppState) : Bool :=
  !s.isLoading && !(jsTrim s.prompt == "")

/-- Submitting the edit form as the user can actually do it: the form's
only submit control is the button of lines 201-208, so the submission
event reaches `handleSubmit` only while that button is enabled; otherwise
nothing happens. -/
def dispatchSubmit (s : AppState) : AppState × Option ServiceRequest :=
  if submitButtonEnabled s then handleSubmitStart s else (s, none)

/-- JavaScript `String.prototype.indexOf` for a single character:
the index of its first occurrence, or `-1`. -/
def jsIndexOf (s : String) (c : Char) : Int :=
  match s.data.findIdx? (fun x => x = c) with
  | some i => (i : Int)
  | none => -1

/-- JavaScript `String.prototype.substring`: clamp both indices to
`[0, length]` and swap them when given in the wrong order. -/
def jsSubstring (s : String) (a b : Int) : String :=
  let n : Int := (s.data.length : Int)
  let x : Nat := (max 0 (min a n)).toNat
  let y : Nat := (max 0 (min b n)).toNat
  ⟨(s.data.take (max x y)).drop (min x y)⟩

/-- The contents of a fetched `Blob`: its MIME type and the base64 text of
its bytes. -/
structure BlobData where
  mimeType : String
  base64 : String
deriving Repr, DecidableEq

/-- How the awaited part of `handleExampleSelect` can end: the `fetch`
rejects; it resolves but `response.ok` is false (line 56); reading the
blob rejects; or the bytes are read successfully. -/
inductive FetchOutcome where
  | networkError
  | httpError (status : Nat)
  | blobError
  | ok (blob : BlobData)
deriving Repr, DecidableEq

/-- The fixed message of line 68. -/
def exampleErrorMsg : String :=
  "Sorry, we couldn\x27t load that example. Please try another or upload your own image."

/-- The filename of line 60: `imageUrl.split("/").pop() || "example.jpg"`
(the fallback also fires when the last segment is empty, since `""` is
falsy). -/
def exampleFilename (imageUrl : String) : String :=
  match (jsSplit imageUrl '/').getLast? with
  | some seg => if seg = "" then "example.jpg" else seg
  | none => "example.jpg"

/-- `handleExampleSelect` (lines 52-70) with the outcome of the awaited
fetch/read passed in: clear the error, and on success build the `File`
from the blob, run `handleImageUpload`, and set the example prompt; any
failure lands in the catch block, which sets the fixed message. -/
def handleExampleSelect (s : AppState) (imageUrl examplePrompt : String)
    (outcome : FetchOutcome) : AppState :=
  let s0 := { s with error := none }
  match outcome with
  | .ok blob =>
    let file : ImageFile :=
      { name := exampleFilename imageUrl, mimeType := blob.mimeType, base64 := blob.base64 }
    { handleImageUpload s0 file with prompt := examplePrompt }
  | _ => { s0 with error := some exampleErrorMsg }

/-- The example prompt list of lines 16-29. -/
def examplePrompts : List String :=
  ["Add a pair of cool sunglasses to the subject.",
   "Change the background to a beautiful beach at sunset.",
   "Make the cat wear a tiny wizard hat.",
   "Turn the photo into a black and white vintage-style image.",
   "Add a subtle flying saucer in the sky.",
   "Make it look like it\x27s snowing lightly.",
   "Add a reflection of a futuristic cityscape in the person\x27s glasses.",
   "Give the dog a superhero cape.",
   "Change the color of the car to a vibrant cherry red.",
   "Surround the main subject with glowing, magical butterflies.",
   "Place a steaming cup of coffee on the table.",
   "Make the sky look like a van Gogh painting."]

/-- `handleExamplePrompt` (lines 132-135): set the prompt to a random
example; the random draw `Math.floor(Math.random() * length)` is modelled
as an externally supplied index, reduced into range. -/
def handleExamplePrompt (s : AppState) (randomIndex : Nat) : AppState :=
  { s with prompt := examplePrompts.getD (randomIndex % examplePrompts.length) "" }

/-- `handleSelectPromptFromHistory` (lines 137-139). -/
def handleSelectPromptFromHistory (s : AppState) (selectedPrompt : String) : AppState :=
  { s with prompt := selectedPrompt }

/-- `handleDownloadRequest` (lines 141-145): ignore a falsy (empty) URL,
else store the pending download reference and open the ad modal.  There is
no check of the current result or of an already-pending download here;
those are prevented by what the UI lets the user reach. -/
def handleDownloadRequest (s : AppState) (imageUrl : String) : AppState :=
  if imageUrl = "" then s
  else { s with imageToDownload := some imageUrl, isAdModalOpen := true }

/-- What the output sink receives on a release (lines 150-159): the href
handed to the anchor element and the suggested filename. -/
structure Release where
  href : String
  filename : String
deriving Repr, DecidableEq

/-- The filename computation of lines 153-155: the MIME type is
`substring(indexOf(":") + 1, indexOf(";"))` of the data URL, and the
extension is `mimeType.split("/")[1] || "png"`. -/
def downloadFilename (url : String) : String :=
  let mimeType := jsSubstring url (jsIndexOf url ':' + 1) (jsIndexOf url ';')
  let extension :=
    match (jsSplit mimeType '/').getD 1 "" with
    | "" => "png"
    | e => e
  "edited-image-by-banana-ai." ++ extension

/-- `startDownload` (lines 147-162): with no (or a falsy) pending
reference, release nothing; otherwise hand exactly one release to the
output sink and clear the pending reference.  Returns the new state and
the list of releases performed. -/
def startDownload (s : AppState) : AppState × List Release :=
  match s.imageToDownload with
  | none => (s, [])
  | some url =>
    if url = "" then (s, [])
    else ({ s with imageToDownload := none },
          [{ href := url, filename := downloadFilename url }])

/-- `handleAdModalClose` (lines 164-167): close the modal, then run
`startDownload`. -/
def handleAdModalClose (s : AppState) : AppState × List Release :=
  startDownload { s with isAdModalOpen := false }

/-- The render condition of the download button (lines 271-273 together
with the branch at line 189): the edited panel exists only when a preview
is present, and the button only when a truthy edited image URL is shown
and no submission is loading. -/
def downloadButtonVisible (s : AppState) : Bool :=
  s.originalImagePreview.isSome && !s.isLoading &&
    (match s.editedResult with
     | some r => !(r.imageUrl == "")
     | none => false)

/-- The user-visible and asynchronous events of the component.  Each
user event corresponds to a control in the render tree of lines 170-253;
`serviceReturn` is the settling of the awaited call inside
`handleSubmit`, and `exampleSelect` carries the outcome of its awaited
fetch. -/
inductive Event where
  | typePrompt (text : String)
  | uploadImage (file : ImageFile)
  | exampleSelect (imageUrl examplePrompt : String) (outcome : FetchOutcome)
  | resetClick
  | submitForm
  | serviceReturn (outcome : ServiceOutcome)
  | examplePromptClick (randomIndex : Nat)
  | historySelect (selectedPrompt : String)
  | downloadClick
  | adModalCloseClick

/-- One step of the application under an event, with the guards the
render tree imposes: the textarea, form, example-prompt button and prompt
history exist only when a preview is shown (line 189) and are disabled
while loading (lines 199, 203, 215, 225); the upload control and example
gallery exist only when no preview is shown (line 174); the download
button obeys `downloadButtonVisible`; the modal close control exists only
while the modal is open (line 251).

Modelled from the spec: the `AdModal`, `Header` and `PromptHistory`
component internals are not under `src/`.  Per the spec's Download Gate
(§4.4, a blocking interstitial that must run to completion and is not
skippable), while the modal is open no other user control can be
activated, so every user event other than the modal's own close is a
no-op then; the reset control (`Header`) is modelled as always available
outside the modal, and the history list as offering exactly the ledger's
entries.  `serviceReturn` is an asynchronous completion and is never
blocked by the UI; it may also be fired in states with no call in flight,
a harmless over-approximation of the trace set. -/
def stepEvent (s : AppState) (e : Event) : AppState :=
  match e with
  | .typePrompt text =>
    if !s.isAdModalOpen && s.originalImagePreview.isSome && !s.isLoading then
      { s with prompt := text }
    else s
  | .uploadImage file =>
    if !s.isAdModalOpen && s.originalImagePreview.isNone then
      handleImageUpload s file
    else s
  | .exampleSelect imageUrl examplePrompt outcome =>
    if !s.isAdModalOpen && s.originalImagePreview.isNone then
      handleExampleSelect s imageUrl examplePrompt outcome
    else s
  | .resetClick =>
    if !s.isAdModalOpen then resetState s else s
  | .submitForm =>
    if !s.isAdModalOpen && s.originalImagePreview.isSome then
      (dispatchSubmit s).1
    else s
  | .serviceReturn outcome => handleSubmitComplete s outcome
  | .examplePromptClick randomIndex =>
    if !s.isAdModalOpen && s.originalImagePreview.isSome && !s.isLoading then
      handleExamplePrompt s randomIndex
    else s
  | .historySelect selectedPrompt =>
    if !s.isAdModalOpen && s.originalImagePreview.isSome && !s.isLoading
        && s.promptHistory.contains selectedPrompt then
      handleSelectPromptFromHistory s selectedPrompt
    else s
  | .downloadClick =>
    if !s.isAdModalOpen && downloadButtonVisible s then
      handleDownloadRequest s
        (match s.editedResult with
         | some r => r.imageUrl
         | none => "")
    else s
  | .adModalCloseClick =>
    if s.isAdModalOpen then (handleAdModalClose s).1 else s

/-- The states the application can actually be in: everything the event
system can produce from the initial hook values. -/
inductive Reachable : AppState → Prop
  | init : Reachable initialState
  | step (s : AppState) (e : Event) : Reachable s → Reachable (stepEvent s e)

/-- The download-gate slot invariant: the ad modal is open exactly while a
pending download is stored, and a stored pending reference is never the
empty (falsy) string. -/
def modalInv (s : AppState) : Prop :=
  s.isAdModalOpen = s.imageToDownload.isSome ∧
  ∀ u, s.imageToDownload = some u → u ≠ ""

-- Ledger helper lemmas -------------------------------------------------

/-- After a nonempty-trim `record`, the trimmed value does not occur past
the head: the tail is a filter removing it, truncated. -/
theorem record_count_head (history : List String) (x : String) (hx : jsTrim x ≠ "") :
    (record history x).count (jsTrim x) = 1 := by
  have hnotmem : jsTrim x ∉ (history.filter (fun p => p ≠ jsTrim x)).take 4 := by
    intro hmem
    have := List.of_mem_filter (List.take_subset 4 _ hmem)
    simp at this
  simp only [record]
  rw [if_neg hx, List.take_succ_cons, List.count_cons_self,
    List.count_eq_zero.mpr hnotmem]

/-- `record` never makes the ledger longer than 5. -/
theorem record_length_le (history : List String) (x : String)
    (h : history.length ≤ 5) : (record history x).length ≤ 5 := by
  simp only [record]
  split
  · exact h
  · simp [List.length_take]

/-- `record` preserves freedom from duplicates. -/
theorem record_nodup (history : List String) (x : String)
    (h : history.Nodup) : (record history x).Nodup := by
  simp only [record]
  split
  · exact h
  · refine List.Nodup.sublist (List.take_sublist 5 _) ?_
    refine List.nodup_cons.mpr ⟨?_, List.Nodup.filter _ h⟩
    intro hmem
    have := List.of_mem_filter hmem
    simp at this

/-- Starting from a bounded duplicate-free ledger, any sequence of
`record` operations keeps it bounded and duplicate-free. -/
theorem foldl_record_inv (ops : List String) (l : List String)
    (h1 : l.length ≤ 5) (h2 : l.Nodup) :
    (ops.foldl record l).length ≤ 5 ∧ (ops.foldl record l).Nodup := by
  induction ops generalizing l with
  | nil => exact ⟨h1, h2⟩
  | cons x ops ih =>
    exact ih (record l x) (record_length_le l x h1) (record_nodup l x h2)

-- Download-gate invariant ----------------------------------------------

/-- Every event preserves the download-gate slot invariant. -/
theorem modalInv_step (s : AppState) (e : Event) (h : modalInv s) :
    modalInv (stepEvent s e) := by
  obtain ⟨h1, h2⟩ := h
  cases e with
  | typePrompt text =>
    simp only [stepEvent]; split_ifs <;> exact ⟨h1, h2⟩
  | uploadImage file =>
    simp only [stepEvent]; split_ifs <;> exact ⟨h1, h2⟩
  | exampleSelect imageUrl examplePrompt outcome =>
    simp only [stepEvent]; split_ifs
    · cases outcome <;> exact ⟨h1, h2⟩
    · exact ⟨h1, h2⟩
  | resetClick =>
    simp only [stepEvent]; split_ifs <;> exact ⟨h1, h2⟩
  | submitForm =>
    simp only [stepEvent, dispatchSubmit]
    split_ifs
    · unfold handleSubmitStart
      cases s.originalImage
      · exact ⟨h1, h2⟩
      · dsimp only; split_ifs <;> exact ⟨h1, h2⟩
    · exact ⟨h1, h2⟩
    · exact ⟨h1, h2⟩
  | serviceReturn outcome =>
    cases outcome <;> exact ⟨h1, h2⟩
  | examplePromptClick randomIndex =>
    simp only [stepEvent]; split_ifs <;> exact ⟨h1, h2⟩
  | historySelect selectedPrompt =>
    simp only [stepEvent]; split_ifs <;> exact ⟨h1, h2⟩
  | downloadClick =>
    simp only [stepEvent]
    split_ifs with hc
    · unfold handleDownloadRequest
      split_ifs with hurl
      · exact ⟨h1, h2⟩
      · refine ⟨rfl, ?_⟩
        intro u hu
        cases hu
        exact hurl
    · exact ⟨h1, h2⟩
  | adModalCloseClick =>
    simp only [stepEvent]
    split_ifs with hopen
    · unfold handleAdModalClose startDownload
      dsimp only
      cases hp : s.imageToDownload with
      | none =>
        refine ⟨rfl, ?_⟩
        intro u hu
        cases hu
      | some url =>
        dsimp only
        split_ifs with hurl
        · exact absurd hurl (h2 url hp)
        · refine ⟨rfl, ?_⟩
          intro u hu
          cases hu
    · exact ⟨h1, h2⟩

/-- Every reachable state satisfies the download-gate slot invariant. -/
theorem reachable_modalInv (s : AppState) (h : Reachable s) : modalInv s := by
  induction h with
  | init => exact ⟨rfl, by intro u hu; cases hu⟩
  | step s e _ ih => exact modalInv_step s e ih

-- Concrete fixtures ----------------------------------------------------

/-- A concrete uploaded file. -/
def fileA : ImageFile := { name := "a.png", mimeType := "image/png", base64 := "QUJD" }

/-- A second concrete uploaded file. -/
def fileB : ImageFile := { name := "b.jpg", mimeType := "image/jpeg", base64 := "REVG" }

/-- A concrete successful edit result. -/
def resultA : EditImageResult := { imageUrl := "data:image/png;base64,RUZH", text := none }

/-- A concrete Ready state: `fileA` ingested, then the prompt typed. -/
def readyA : AppState :=
  stepEvent (stepEvent initialState (Event.uploadImage fileA)) (Event.typePrompt "add hat")

/-- A concrete Submitting state: submitting `readyA`. -/
def loadingA : AppState := stepEvent readyA Event.submitForm

-- C1 -------------------------------------------------------------------

/-- C1 counterexample.  The claim says a completion arriving after a full
reset is discarded with no state mutation (the result stays cleared).  On
the code, submit from a Ready state, reset while Submitting, then let the
call succeed: the stale result is written into the state, so the result
does not stay cleared. -/
theorem c1_stale_completion_mutates :
    (stepEvent (stepEvent (stepEvent readyA Event.submitForm) Event.resetClick)
        (Event.serviceReturn (ServiceOutcome.success resultA))).editedResult
      = some resultA := by decide

/-- C1 amended: a full reset during Submitting does not cause the eventual
completion to be discarded; `handleSubmit`'s continuation runs against the
post-reset state unguarded: success writes the stale result, failure
writes the error message, and both clear the loading flag, while the asset
and history stay as the reset left them. -/
theorem c1_completion_applied_after_reset (s : AppState) (r : EditImageResult) (m : String) :
    (handleSubmitComplete (resetState s) (ServiceOutcome.success r)).editedResult = some r ∧
    (handleSubmitComplete (resetState s) (ServiceOutcome.failureWithMessage m)).error = some m ∧
    (handleSubmitComplete (resetState s) (ServiceOutcome.success r)).originalImage = none ∧
    (handleSubmitComplete (resetState s) (ServiceOutcome.success r)).promptHistory = [] ∧
    (handleSubmitComplete (resetState s) (ServiceOutcome.success r)).isLoading = false :=
  ⟨rfl, rfl, rfl, rfl, rfl⟩

-- C2 -------------------------------------------------------------------

/-- C2: while a submission is in flight (`isLoading`), the submit button
is disabled, so submitting again issues no second request and changes
nothing — in particular the history ledger is untouched. -/
theorem c2_submit_while_submitting_rejected (s : AppState) (h : s.isLoading = true) :
    dispatchSubmit s = (s, none) ∧ stepEvent s Event.submitForm = s := by
  have hbtn : submitButtonEnabled s = false := by
    unfold submitButtonEnabled
    rw [h]
    rfl
  have hd : dispatchSubmit s = (s, none) := by
    simp [dispatchSubmit, hbtn]
  refine ⟨hd, ?_⟩
  simp only [stepEvent, hd]
  split_ifs <;> rfl

/-- C2 witness: the concrete Submitting state built from `readyA`. -/
theorem c2_witness :
    dispatchSubmit loadingA = (loadingA, none) ∧
    stepEvent loadingA Event.submitForm = loadingA :=
  c2_submit_while_submitting_rejected loadingA (by decide)

-- C3 -------------------------------------------------------------------

/-- C3 counterexample.  The claim says every preview reference allocated
for a previously ingested asset has been released.  On the code, after
ingesting `fileA` then `fileB`, reference 0 (allocated for `fileA`) is
still allocated and nothing was ever revoked: `URL.revokeObjectURL` is
never called. -/
theorem c3_preview_not_released :
    (handleImageUpload (handleImageUpload initialState fileA) fileB).revokedUrls = [] ∧
    0 ∈ (handleImageUpload (handleImageUpload initialState fileA) fileB).allocatedUrls ∧
    (handleImageUpload (handleImageUpload initialState fileA) fileB).originalImagePreview
      = some 1 := by decide

/-- The revoked-reference list is untouched by any sequence of uploads. -/
theorem foldl_upload_revoked (fs : List ImageFile) (s : AppState) :
    (fs.foldl handleImageUpload s).revokedUrls = s.revokedUrls := by
  induction fs generalizing s with
  | nil => rfl
  | cons f fs ih =>
    rw [List.foldl_cons, ih]
    rfl

/-- Each upload allocates exactly one new preview reference. -/
theorem foldl_upload_alloc (fs : List ImageFile) (s : AppState) :
    (fs.foldl handleImageUpload s).allocatedUrls.length
      = s.allocatedUrls.length + fs.length := by
  induction fs generalizing s with
  | nil => rfl
  | cons f fs ih =>
    have h2 : (handleImageUpload s f).allocatedUrls.length
        = s.allocatedUrls.length + 1 := rfl
    rw [List.foldl_cons, ih, h2, List.length_cons]
    omega

/-- C3 amended: after any sequence of ingestions exactly one asset is
current (the last one), but no previously allocated preview reference is
ever released — neither by further ingestions nor by a full reset; each
ingestion leaks one more allocated reference. -/
theorem c3_single_asset_no_release (s : AppState) (fs : List ImageFile) (f : ImageFile) :
    ((fs ++ [f]).foldl handleImageUpload s).originalImage = some f ∧
    ((fs ++ [f]).foldl handleImageUpload s).revokedUrls = s.revokedUrls ∧
    (resetState ((fs ++ [f]).foldl handleImageUpload s)).revokedUrls = s.revokedUrls ∧
    ((fs ++ [f]).foldl handleImageUpload s).allocatedUrls.length
      = s.allocatedUrls.length + fs.length + 1 := by
  rw [List.foldl_append]
  refine ⟨rfl, foldl_upload_revoked fs s, foldl_upload_revoked fs s, ?_⟩
  have h := foldl_upload_alloc fs s
  have h2 : ([f].foldl handleImageUpload (fs.foldl handleImageUpload s)).allocatedUrls.length
      = (fs.foldl handleImageUpload s).allocatedUrls.length + 1 := rfl
  omega

-- C4 -------------------------------------------------------------------

/-- After a nonempty-trim `record`, the trimmed value sits at position 0. -/
theorem record_head (history : List String) (x : String) (hx : jsTrim x ≠ "") :
    (record history x).head? = some (jsTrim x) := by
  simp only [record]
  rw [if_neg hx, List.take_succ_cons]
  rfl

/-- C4: `record` trims the instruction; an empty trimmed value is a no-op;
otherwise it removes any equal entry, prepends the trimmed value and
truncates to 5; and recording the same trimmed value twice consecutively
leaves exactly one entry equal to it, at position 0. -/
theorem c4_record_spec (h : List String) (x : String) :
    (jsTrim x = "" → record h x = h) ∧
    (jsTrim x ≠ "" →
      record h x = (jsTrim x :: h.filter (fun p => p ≠ jsTrim x)).take 5 ∧
      (record (record h x) x).head? = some (jsTrim x) ∧
      (record (record h x) x).count (jsTrim x) = 1) := by
  constructor
  · intro he
    simp only [record]
    rw [if_pos he]
  · intro hne
    exact ⟨by simp only [record]; rw [if_neg hne],
           record_head (record h x) x hne,
           record_count_head (record h x) x hne⟩

/-- C4 witness: an all-whitespace instruction is a no-op, and recording
a padded instruction twice leaves one copy of its trimmed value on top. -/
theorem c4_witness :
    record ["a"] "   " = ["a"] ∧
    (record (record ["a"] " b ") " b ").head? = some (jsTrim " b ") ∧
    (record (record ["a"] " b ") " b ").count (jsTrim " b ") = 1 :=
  ⟨(c4_record_spec ["a"] "   ").1 (by decide),
   ((c4_record_spec ["a"] " b ").2 (by decide)).2.1,
   ((c4_record_spec ["a"] " b ").2 (by decide)).2.2⟩

-- C5 -------------------------------------------------------------------

/-- C5: any sequence of `record` operations from the empty ledger keeps it
at 5 entries or fewer with no duplicates, and recording a 6th distinct
nonempty instruction into a full ledger prepends it and evicts the
least-recently-used (last) entry. -/
theorem c5_ledger_invariant (ops : List String) (h : List String) (x : String)
    (h5 : h.length = 5) (hmem : jsTrim x ∉ h) (hne : jsTrim x ≠ "") :
    (ops.foldl record []).length ≤ 5 ∧ (ops.foldl record []).Nodup ∧
    record h x = jsTrim x :: h.dropLast := by
  obtain ⟨hl, hn⟩ := foldl_record_inv ops [] (by simp) List.nodup_nil
  refine ⟨hl, hn, ?_⟩
  have hf : h.filter (fun p => p ≠ jsTrim x) = h := by
    apply List.filter_eq_self.mpr
    intro a ha
    have hne2 : a ≠ jsTrim x := fun hcon => hmem (hcon ▸ ha)
    simp [hne2]
  have h4 : h.take 4 = h.dropLast := by
    rw [List.dropLast_eq_take, h5]
  simp only [record]
  rw [if_neg hne, hf, List.take_succ_cons, h4]

/-- C5 witness: four records (one a duplicate modulo trimming) stay
bounded and duplicate-free, and a 6th distinct instruction evicts the
oldest entry of a full ledger. -/
theorem c5_witness :
    ((["a", "b", "  a  ", "c"].foldl record []).length ≤ 5 ∧
     (["a", "b", "  a  ", "c"].foldl record []).Nodup ∧
     record ["a", "b", "c", "d", "e"] " f "
       = jsTrim " f " :: ["a", "b", "c", "d", "e"].dropLast) :=
  c5_ledger_invariant ["a", "b", "  a  ", "c"] ["a", "b", "c", "d", "e"] " f "
    (by decide) (by decide) (by decide)

-- C6 -------------------------------------------------------------------

/-- C6: submitting a whitespace-only instruction from a Ready state (an
asset is present) is rejected synchronously: no request is issued, the
validation message is set, and every other field — asset, preview, result,
loading flag, and the history ledger — is left unchanged. -/
theorem c6_empty_instruction_rejected (s : AppState) (img : ImageFile)
    (himg : s.originalImage = some img) (hp : jsTrim s.prompt = "") :
    handleSubmitStart s = ({ s with error := some validationMsg }, none) := by
  unfold handleSubmitStart
  rw [himg]
  dsimp only
  rw [if_pos hp]

/-- A concrete Ready state whose prompt is whitespace-only. -/
def readyWs : AppState :=
  stepEvent (stepEvent initialState (Event.uploadImage fileA)) (Event.typePrompt "   ")

/-- C6 witness: the concrete Ready state `readyWs`. -/
theorem c6_witness :
    handleSubmitStart readyWs = ({ readyWs with error := some validationMsg }, none) :=
  c6_empty_instruction_rejected readyWs fileA (by decide) (by decide)

-- C7 -------------------------------------------------------------------

/-- C7: over reachable application states, a download request is a no-op
both when no Succeeded result is present (the download button is not
rendered, so the gate is not opened and the pending slot stays as it was)
and when a pending download is already outstanding (then, by the gate
invariant, the blocking modal is open, so the request cannot be
re-issued). -/
theorem c7_requestRelease_noop (s : AppState) (hs : Reachable s) :
    (s.editedResult = none → stepEvent s Event.downloadClick = s) ∧
    (s.imageToDownload.isSome = true → stepEvent s Event.downloadClick = s) := by
  obtain ⟨h1, _h2⟩ := reachable_modalInv s hs
  constructor
  · intro hres
    simp only [stepEvent]
    split_ifs with hc
    · exfalso
      unfold downloadButtonVisible at hc
      rw [hres] at hc
      simp at hc
    · rfl
  · intro hpend
    have hopen : s.isAdModalOpen = true := by rw [h1]; exact hpend
    simp only [stepEvent]
    split_ifs with hc
    · rw [hopen] at hc
      simp at hc
    · rfl

/-- The concrete Succeeded state reached from `loadingA`. -/
def successA : AppState :=
  stepEvent loadingA (Event.serviceReturn (ServiceOutcome.success resultA))

/-- The concrete state with a pending download outstanding. -/
def pendingA : AppState := stepEvent successA Event.downloadClick

/-- The pending-download state is reachable by actual user events. -/
theorem pendingA_reachable : Reachable pendingA :=
  Reachable.step _ _ (Reachable.step _ _ (Reachable.step _ _ (Reachable.step _ _
    (Reachable.step _ _ Reachable.init))))

/-- C7 witness: with a pending download outstanding a second request
changes nothing, and with no result present (initial state) a request
changes nothing. -/
theorem c7_witness :
    pendingA.imageToDownload.isSome = true ∧
    stepEvent pendingA Event.downloadClick = pendingA ∧
    initialState.editedResult = none ∧
    stepEvent initialState Event.downloadClick = initialState :=
  ⟨by decide,
   (c7_requestRelease_noop pendingA pendingA_reachable).2 (by decide),
   rfl,
   (c7_requestRelease_noop initialState Reachable.init).1 rfl⟩

-- C8 -------------------------------------------------------------------

/-- A concrete Ready state whose prompt carries surrounding whitespace. -/
def readyPadded : AppState :=
  stepEvent (stepEvent initialState (Event.uploadImage fileA)) (Event.typePrompt " add hat ")

/-- C8 counterexample.  The claim says the instruction passed to the
transformation service equals the trimmed prompt, i.e. the value recorded
in the history ledger.  On the code, submitting the padded prompt
" add hat " records "add hat" in the ledger but passes the raw
" add hat " to the service (line 118 passes `prompt`, not
`trimmedPrompt`). -/
theorem c8_service_gets_untrimmed :
    (handleSubmitStart readyPadded).2.map (fun r => r.instruction) = some " add hat " ∧
    (handleSubmitStart readyPadded).1.promptHistory = ["add hat"] ∧
    (" add hat " : String) ≠ "add hat" := by decide

/-- The request `handleSubmitStart` issues for a given file and raw
prompt. -/
def expectedRequest (img : ImageFile) (rawPrompt : String) : ServiceRequest :=
  { base64 := (convertFileToBase64 img).1
    mimeType := (convertFileToBase64 img).2
    instruction := rawPrompt }

/-- C8 amended: when a submission starts, the ledger records the trimmed
prompt at position 0, while the service receives the raw prompt text; the
two agree exactly when the prompt is already trimmed. -/
theorem c8_instruction_flow (s : AppState) (img : ImageFile)
    (himg : s.originalImage = some img) (hne : jsTrim s.prompt ≠ "") :
    (handleSubmitStart s).2 = some (expectedRequest img s.prompt) ∧
    (handleSubmitStart s).1.promptHistory.head? = some (jsTrim s.prompt) ∧
    (s.prompt = jsTrim s.prompt →
      (handleSubmitStart s).2.map (fun r => r.instruction) = some (jsTrim s.prompt)) := by
  unfold handleSubmitStart
  rw [himg]
  dsimp only
  rw [if_neg hne]
  refine ⟨rfl, record_head s.promptHistory s.prompt hne, ?_⟩
  intro heq
  exact congrArg some heq

/-- C8 witness: the already-trimmed prompt of `readyA` flows unchanged to
both the ledger and the service. -/
theorem c8_witness :
    (handleSubmitStart readyA).2 = some (expectedRequest fileA readyA.prompt) ∧
    (handleSubmitStart readyA).1.promptHistory.head? = some (jsTrim readyA.prompt) ∧
    (readyA.prompt = jsTrim readyA.prompt →
      (handleSubmitStart readyA).2.map (fun r => r.instruction)
        = some (jsTrim readyA.prompt)) :=
  c8_instruction_flow readyA fileA (by decide) (by decide)

-- C9 -------------------------------------------------------------------

/-- C9: requesting a release of a (truthy) reference and then closing the
gate hands the output sink exactly one release carrying that reference and
leaves the pending slot empty; and running the release step with an empty
pending slot releases nothing. -/
theorem c9_gate_release_exactly_once (s : AppState) (ref : String) (h : ref ≠ "") :
    (handleAdModalClose (handleDownloadRequest s ref)).2
      = [{ href := ref, filename := downloadFilename ref }] ∧
    (handleAdModalClose (handleDownloadRequest s ref)).1.imageToDownload = none ∧
    (∀ s2 : AppState, s2.imageToDownload = none → (startDownload s2).2 = []) := by
  have hreq : handleDownloadRequest s ref
      = { s with imageToDownload := some ref, isAdModalOpen := true } := by
    unfold handleDownloadRequest
    rw [if_neg h]
  refine ⟨?_, ?_, ?_⟩
  · rw [hreq]
    unfold handleAdModalClose startDownload
    dsimp only
    rw [if_neg h]
  · rw [hreq]
    unfold handleAdModalClose startDownload
    dsimp only
    rw [if_neg h]
  · intro s2 h2
    unfold startDownload
    rw [h2]

/-- C9 witness: the concrete Succeeded state and its result reference. -/
theorem c9_witness :
    (handleAdModalClose (handleDownloadRequest successA resultA.imageUrl)).2
      = [{ href := resultA.imageUrl, filename := downloadFilename resultA.imageUrl }] ∧
    (handleAdModalClose (handleDownloadRequest successA resultA.imageUrl)).1.imageToDownload
      = none ∧
    (∀ s2 : AppState, s2.imageToDownload = none → (startDownload s2).2 = []) :=
  c9_gate_release_exactly_once successA resultA.imageUrl (by decide)

-- C10 ------------------------------------------------------------------

/-- C10: when ingesting an example image fails (network error, non-success
HTTP status, or unreadable bytes), the handler's only net mutation is the
fixed error message: asset, preview reference, prompt, result, history
ledger — and the resource ledger — are all exactly as before. -/
theorem c10_example_failure_atomic (s : AppState) (imageUrl examplePrompt : String)
    (o : FetchOutcome) (hfail : ∀ b, o ≠ FetchOutcome.ok b) :
    handleExampleSelect s imageUrl examplePrompt o
      = { s with error := some exampleErrorMsg } := by
  cases o with
  | networkError => rfl
  | httpError status => rfl
  | blobError => rfl
  | ok b => exact absurd rfl (hfail b)

/-- C10 witness: a failed fetch of a concrete example URL. -/
theorem c10_witness :
    handleExampleSelect initialState "https://example.com/cat.jpg" "Add a hat."
        FetchOutcome.networkError
      = { initialState with error := some exampleErrorMsg } :=
  c10_example_failure_atomic initialState "https://example.com/cat.jpg" "Add a hat."
    FetchOutcome.networkError (fun _b h => FetchOutcome.noConfusion h)
